import Mathlib

/-!
Verification of the clawio data service (an authenticated HTTP gateway that
streams blobs between clients and a storage backend).

The embedding models:
- the HTTP request/response surface as plain structures (`Request`, `Response`);
- the token extraction and authentication guard, translated from
  `service.go` (`getTokenFromRequest`, `authenticateHandlerFunc`); the
  gorilla per-request context store becomes explicit state passing (the
  guard returns the final request alongside the response);
- the service façade operations `Prefix` (the variant that consults
  `BaseURL`) and `Middleware`;
- the transfer handlers `download` and `upload`, whose bodies are not part
  of the visible source: they are modelled from the spec's streaming
  decision protocol (§4.3) and error taxonomy (§4.4), with a storage
  stream represented as a list of read outcomes (`Option.some chunk` is a
  successful read, `Option.none` a read error, end of list is end of
  stream).
-/

/-- The authenticated principal: minimally a unique username string. -/
structure Identity where
  username : String
deriving DecidableEq, Repr

/-- An HTTP request, reduced to the fields the service consults: header
lookup, URL-query lookup (both total, returning "" when absent, as Go's
`Header.Get` and `Query().Get` do), and the per-request context slot that
gorilla `context.Set(r, keys.UserKey, user)` writes. -/
structure Request where
  header : String → String
  query : String → String
  ctxIdentity : Option Identity

/-- An HTTP response: the committed status code and the full body written. -/
structure Response where
  status : Nat
  body : String
deriving DecidableEq, Repr

/-- A request handler, as `http.HandlerFunc` behaves observably: a request
goes in, a response comes out. -/
def Handler := Request → Response

/-- Translated from `service.go` (getTokenFromRequest): return the `token`
header when non-empty, otherwise the `token` query parameter. -/
def getTokenFromRequest (r : Request) : String :=
  let t := r.header "token"
  if t ≠ "" then t else r.query "token"

/-- The response `http.Error(w, http.StatusText(401), 401)` produces. -/
def unauthorizedResponse : Response :=
  { status := 401, body := "Unauthorized\n" }

/-- Translated from `service.go` (authenticateHandlerFunc): extract the
token, verify it; on error answer 401 and return without touching the
context or the handler; on success attach the identity to the request
context and invoke the wrapped handler. The gorilla context mutation is
made explicit: the result carries the request state after the guard ran. -/
def authenticateHandlerFunc (verify : String → Except String Identity)
    (handler : Handler) (r : Request) : Response × Request :=
  match verify (getTokenFromRequest r) with
  | Except.error _ => (unauthorizedResponse, r)
  | Except.ok user =>
    let r2 : Request := { r with ctxIdentity := Option.some user }
    (handler r2, r2)

/-- The GeneralConfig fields of the service configuration (variant with a
configurable BaseURL). -/
structure GeneralConfig where
  baseURL : String
  jwtKey : String
  jwtSigningMethod : String
  authenticationServiceBaseURL : String
  requestBodyMaxSize : Nat

/-- Translated from the façade variant whose `Prefix` consults the
configuration: return BaseURL, defaulting to "/" when it is empty. -/
def Prefix (cfg : GeneralConfig) : String :=
  let base := cfg.baseURL
  if base = "" then "/" else base

/-- Translated from the other historical façade variant (`service.go`),
whose `Prefix` returns a fixed literal and ignores configuration. -/
def PrefixFixed : String := "/clawio/v1/data"

/-- Translated from `service.go` (Middleware): the hook returns its
argument unchanged. -/
def Middleware (h : Handler) : Handler := h

/-- The storage-outcome error kinds the gateway distinguishes:
no error, `codes.NotFound`, or any other failure (carrying its
underlying message, which must never reach the client). -/
inductive ErrorKind where
  | none
  | notFound
  | other (msg : String)
deriving DecidableEq, Repr

/-- Modelled from the spec: the Error Taxonomy Translator (§4.4), a pure
mapping applied once per failed outcome. `NotFound` becomes 404 with the
minimal status-text body; every other failure becomes 500 with a generic
body that does not echo the underlying cause. -/
def translateError : ErrorKind → Response
  | ErrorKind.notFound => { status := 404, body := "Not Found\n" }
  | _ => { status := 500, body := "Internal Server Error\n" }

/-- Modelled from the spec: the copy loop of §4.3.2 step 3 — after the
success status is committed, copy chunks verbatim until end of stream or a
read error; on a read error the gateway stops copying (it must not write
an error body on top of a started success response). -/
def copyStream : List (Option String) → String
  | [] => ""
  | Option.none :: _ => ""
  | Option.some c :: rest => c ++ copyStream rest

/-- Modelled from the spec: the Download handler's streaming decision
protocol (§4.3.2). The storage collaborator's outcome is an error kind and
a stream of read results. An upfront error is translated immediately.
Otherwise the handler attempts the first read before committing any
status: if that first read fails, the failure is translated as a generic
internal failure (500) and no success status is ever sent; if the first
read succeeds (data, or clean end of stream for an empty blob), a 200 is
committed, the already-read chunk written, and the remainder copied. -/
def download (ek : ErrorKind) (stream : List (Option String)) : Response :=
  match ek with
  | ErrorKind.none =>
    match stream with
    | [] => { status := 200, body := "" }
    | Option.none :: _ => translateError (ErrorKind.other "first read failed")
    | Option.some c :: rest => { status := 200, body := c ++ copyStream rest }
  | e => translateError e

/-- The response for a body exceeding the configured maximum
(`http.StatusText(413)` body). -/
def payloadTooLargeResponse : Response :=
  { status := 413, body := "Request Entity Too Large\n" }

/-- Modelled from the spec: the Upload handler (§4.3.1). The body is the
list of bytes the client sends; the handler rejects with PayloadTooLarge
when the body size exceeds the configured maximum, before the storage
collaborator is invoked; otherwise it delegates the capped stream to the
collaborator and translates the outcome. The boolean result records
whether the collaborator upload call was made. -/
def upload (maxSize : Nat) (body : List Nat)
    (collab : List Nat → ErrorKind) : Response × Bool :=
  if maxSize < body.length then (payloadTooLargeResponse, false)
  else
    match collab body with
    | ErrorKind.none => ({ status := 200, body := "" }, true)
    | e => (translateError e, true)

/-- Modelled from the spec: the full authenticated download pipeline — the
authentication guard wrapped around a handler that asks the storage
collaborator for the blob's stream and runs the download decision
protocol. -/
def downloadEndpoint (verify : String → Except String Identity)
    (collab : Identity → String → ErrorKind × List (Option String))
    (r : Request) (blobRef : String) : Response :=
  (authenticateHandlerFunc verify
    (fun r2 =>
      match r2.ctxIdentity with
      | Option.some u =>
        let out := collab u blobRef
        download out.1 out.2
      | Option.none => { status := 500, body := "Internal Server Error\n" }) r).1

/-- Ordered concatenation of a list of chunks, the body a lossless,
duplication-free copy must produce. -/
def concatChunks : List String → String
  | [] => ""
  | c :: rest => c ++ concatChunks rest

/-- Concrete verifier used by witnesses: accepts exactly the token "good",
yielding the identity "test". -/
def vTest : String → Except String Identity := fun t =>
  if t = "good" then Except.ok { username := "test" } else Except.error "invalid"

/-- Concrete request used by witnesses: carries the valid token in the
`token` header, no identity attached yet. -/
def rGood : Request :=
  { header := fun k => if k = "token" then "good" else ""
    query := fun _ => ""
    ctxIdentity := Option.none }

/-- Concrete request used by witnesses: carries no token anywhere. -/
def rBad : Request :=
  { header := fun _ => ""
    query := fun _ => ""
    ctxIdentity := Option.none }

/-- Concrete handler used by witnesses: reports the attached identity's
username in the body. -/
def hTest : Handler := fun r =>
  { status := 200, body := (r.ctxIdentity.map Identity.username).getD "" }

theorem copyStream_map_some :
    ∀ l : List String, copyStream (l.map Option.some) = concatChunks l
  | [] => rfl
  | c :: rest => by
      simp [copyStream, concatChunks, copyStream_map_some rest]

/-- C1: if the storage call returns a stream with no upfront error but the
very first read fails, the download response has status 500 with the
generic body — no byte of a 200 response is ever written — and,
conversely, a 200 is committed only when the first read attempt did not
fail (it returned a chunk, or clean end of stream for an empty blob). -/
theorem download_first_read_failure :
    (∀ rest : List (Option String),
        download ErrorKind.none (Option.none :: rest)
          = { status := 500, body := "Internal Server Error\n" }) ∧
    (∀ (ek : ErrorKind) (s : List (Option String)),
        (download ek s).status = 200 →
          ek = ErrorKind.none ∧ ∀ rest, s ≠ Option.none :: rest) := by
  constructor
  · intro rest
    rfl
  · intro ek s h
    cases ek with
    | none =>
      refine ⟨rfl, ?_⟩
      cases s with
      | nil => intro rest hh; cases hh
      | cons hd tl =>
        cases hd with
        | none => simp [download, translateError] at h
        | some c => intro rest hh; cases hh
    | notFound => simp [download, translateError] at h
    | other msg => simp [download, translateError] at h

/-- Witness for C1 at concrete inputs: a stream whose first read fails
yields the 500 response, and a stream whose first read succeeds satisfies
the hypothesis of the converse direction. -/
theorem download_first_read_failure_witness :
    download ErrorKind.none [Option.none]
        = { status := 500, body := "Internal Server Error\n" } ∧
    (ErrorKind.none = ErrorKind.none ∧
      ∀ rest, ([Option.some "1"] : List (Option String)) ≠ Option.none :: rest) :=
  ⟨download_first_read_failure.1 [],
   download_first_read_failure.2 ErrorKind.none [Option.some "1"] rfl⟩

/-- C2: a failed storage outcome of a download is answered by exactly the
error-taxonomy translation: `NotFound` yields 404, and any other
unclassified error yields 500 with a generic body that does not depend on
(and hence does not echo) the underlying cause. -/
theorem download_error_translation :
    (∀ s, download ErrorKind.notFound s = translateError ErrorKind.notFound) ∧
    (∀ msg s, download (ErrorKind.other msg) s
        = translateError (ErrorKind.other msg)) ∧
    (translateError ErrorKind.notFound).status = 404 ∧
    (∀ msg, translateError (ErrorKind.other msg)
        = { status := 500, body := "Internal Server Error\n" }) := by
  refine ⟨fun s => rfl, fun msg s => rfl, rfl, fun msg => rfl⟩

/-- C3: the authentication guard answers 401 without invoking the wrapped
handler when verification fails (the response does not depend on the
handler at all, so no storage-collaborator call can be observed), and
invokes the handler exactly once — the response is exactly one handler
application on the identity-enriched request — when verification
succeeds. -/
theorem authenticate_guard :
    ∀ (verify : String → Except String Identity) (h : Handler) (r : Request),
      (∀ e, verify (getTokenFromRequest r) = Except.error e →
          (authenticateHandlerFunc verify h r).1 = unauthorizedResponse ∧
          ∀ h2 : Handler, (authenticateHandlerFunc verify h2 r).1
              = (authenticateHandlerFunc verify h r).1) ∧
      (∀ u, verify (getTokenFromRequest r) = Except.ok u →
          (authenticateHandlerFunc verify h r).1
            = h { r with ctxIdentity := Option.some u }) := by
  intro verify h r
  constructor
  · intro e he
    constructor
    · simp [authenticateHandlerFunc, he]
    · intro h2
      simp [authenticateHandlerFunc, he]
  · intro u hu
    simp [authenticateHandlerFunc, hu]

/-- Witness for C3 at concrete inputs: with a verifier accepting exactly
"good", a tokenless request is answered 401 independently of the handler,
and a request bearing "good" is answered by the handler applied to the
identity-enriched request. -/
theorem authenticate_guard_witness :
    ((authenticateHandlerFunc vTest hTest rBad).1 = unauthorizedResponse ∧
      ∀ h2 : Handler, (authenticateHandlerFunc vTest h2 rBad).1
          = (authenticateHandlerFunc vTest hTest rBad).1) ∧
    (authenticateHandlerFunc vTest hTest rGood).1
        = hTest { rGood with ctxIdentity := Option.some { username := "test" } } :=
  ⟨(authenticate_guard vTest hTest rBad).1 "invalid" rfl,
   (authenticate_guard vTest hTest rGood).2 { username := "test" } rfl⟩

/-- C4: with a valid outcome and a stream yielding the bytes "1", the
download response is status 200 with body exactly "1"; in general, for any
stream of successful reads, the body is the ordered concatenation of all
chunks — the peeked first chunk is written and the remainder copied with
no chunk lost or duplicated. -/
theorem download_success_body :
    download ErrorKind.none [Option.some "1"] = { status := 200, body := "1" } ∧
    ∀ chunks : List String,
      download ErrorKind.none (chunks.map Option.some)
        = { status := 200, body := concatChunks chunks } := by
  constructor
  · rfl
  · intro chunks
    cases chunks with
    | nil => rfl
    | cons c rest =>
      simp [download, concatChunks, copyStream_map_some rest]

/-- C5: an upload whose body exceeds the configured maximum size is
rejected with status 413 (PayloadTooLarge) and the storage collaborator is
never called. -/
theorem upload_over_limit :
    ∀ (maxSize : Nat) (body : List Nat) (collab : List Nat → ErrorKind),
      maxSize < body.length →
        upload maxSize body collab = (payloadTooLargeResponse, false) ∧
        payloadTooLargeResponse.status = 413 := by
  intro maxSize body collab h
  exact ⟨by simp [upload, h], rfl⟩

/-- Witness for C5: with a configured maximum of 1 byte, a 2-byte body is
rejected with the 413 response and no collaborator call. -/
theorem upload_over_limit_witness :
    upload 1 [0, 0] (fun _ => ErrorKind.none) = (payloadTooLargeResponse, false) ∧
    payloadTooLargeResponse.status = 413 :=
  upload_over_limit 1 [0, 0] (fun _ => ErrorKind.none) (by decide)

/-- C6: in every execution of the authentication guard starting from a
request with no identity attached, the final request state carries an
attached identity if and only if the verifier returned no error. -/
theorem identity_attached_iff_verified :
    ∀ (verify : String → Except String Identity) (h : Handler) (r : Request),
      r.ctxIdentity = Option.none →
        (((authenticateHandlerFunc verify h r).2).ctxIdentity ≠ Option.none ↔
          ∃ u, verify (getTokenFromRequest r) = Except.ok u) := by
  intro verify h r hr
  cases hv : verify (getTokenFromRequest r) with
  | error e =>
    simp [authenticateHandlerFunc, hv, hr]
  | ok u =>
    simp [authenticateHandlerFunc, hv]

/-- Witness for C6: on the concrete valid request the guard's final state
has an identity attached, and indeed the verifier succeeded on its token. -/
theorem identity_attached_iff_verified_witness :
    ((authenticateHandlerFunc vTest hTest rGood).2).ctxIdentity ≠ Option.none ↔
      ∃ u, vTest (getTokenFromRequest rGood) = Except.ok u :=
  identity_attached_iff_verified vTest hTest rGood rfl

/-- C7: the service's configurable Prefix operation resolves to "/"
when no explicit base URL is configured (empty BaseURL), and to the
configured literal otherwise, for every configuration. -/
theorem prefix_resolution :
    ∀ cfg : GeneralConfig,
      (cfg.baseURL = "" → Prefix cfg = "/") ∧
      (cfg.baseURL ≠ "" → Prefix cfg = cfg.baseURL) := by
  intro cfg
  constructor
  · intro h
    simp [Prefix, h]
  · intro h
    simp [Prefix, h]

/-- Witness for C7: an empty base URL resolves to "/", and a configured
literal resolves to itself. -/
theorem prefix_resolution_witness :
    Prefix { baseURL := "", jwtKey := "", jwtSigningMethod := "",
             authenticationServiceBaseURL := "", requestBodyMaxSize := 1024 } = "/" ∧
    Prefix { baseURL := "/clawio/v1/data", jwtKey := "", jwtSigningMethod := "",
             authenticationServiceBaseURL := "", requestBodyMaxSize := 1024 }
      = "/clawio/v1/data" :=
  ⟨(prefix_resolution _).1 rfl, (prefix_resolution _).2 (by decide)⟩

/-- C8: token extraction reads the credential from a single well-defined
location: the value of the `token` header when it is non-empty, and
otherwise the value of the `token` query parameter. -/
theorem token_extraction :
    ∀ r : Request,
      (r.header "token" ≠ "" → getTokenFromRequest r = r.header "token") ∧
      (r.header "token" = "" → getTokenFromRequest r = r.query "token") := by
  intro r
  constructor
  · intro h
    simp [getTokenFromRequest, h]
  · intro h
    simp [getTokenFromRequest, h]

/-- Witness for C8: on the request with a non-empty `token` header the
extraction returns the header value, and on the tokenless request it falls
back to the query parameter. -/
theorem token_extraction_witness :
    getTokenFromRequest rGood = rGood.header "token" ∧
    getTokenFromRequest rBad = rBad.query "token" :=
  ⟨(token_extraction rGood).1 (by decide), (token_extraction rBad).2 rfl⟩

/-- C9: the authenticated download pipeline is deterministic in its
inputs: two requests carrying the same extracted credential, issued
against the same verifier and the same (unchanged) storage collaborator,
receive responses with identical status and body — in particular,
repeating an identical request yields the identical response. -/
theorem download_idempotent :
    ∀ (verify : String → Except String Identity)
      (collab : Identity → String → ErrorKind × List (Option String))
      (r1 r2 : Request) (blobRef : String),
      getTokenFromRequest r1 = getTokenFromRequest r2 →
        downloadEndpoint verify collab r1 blobRef
          = downloadEndpoint verify collab r2 blobRef := by
  intro verify collab r1 r2 blobRef htok
  simp only [downloadEndpoint, authenticateHandlerFunc, htok]
  cases verify (getTokenFromRequest r2) <;> rfl

/-- Witness for C9: repeating the concrete valid request against the
concrete collaborator yields the identical response. -/
theorem download_idempotent_witness :
    downloadEndpoint vTest (fun _ _ => (ErrorKind.none, [Option.some "1"])) rGood "myblob"
      = downloadEndpoint vTest (fun _ _ => (ErrorKind.none, [Option.some "1"])) rGood "myblob" :=
  download_idempotent vTest (fun _ _ => (ErrorKind.none, [Option.some "1"]))
    rGood rGood "myblob" rfl

/-- C10: the service's Middleware operation is the identity function on
handlers: no transformation, authentication included, happens at the
middleware layer. -/
theorem middleware_identity : ∀ h : Handler, Middleware h = h :=
  fun _ => rfl
